import Mathlib

/-!
Shallow embedding of the Express route handlers of the daviddyess/api
repository: the flavor router (src/routes/flavor.js), the ingredient
router (src/routes/ingredient.js), the ingredients list router, the
ingredient categories list router, and the preparations list router
(whose source file is absent from the repository; it is modelled from
the spec).  Each handler is translated as a pure function from the raw
request fields and the Data Access Facade outcome to the HTTP response,
the final logger state, and the list of facade calls issued.
-/

namespace Api

/-- A JSON-like JavaScript value, the currency of request bodies and of
Data Access Facade results. -/
inductive JsonVal where
  | null
  | num (n : Int)
  | str (s : String)
  | arr (elems : List JsonVal)
  | obj (fields : List (String × JsonVal))

/-- JavaScript truthiness test on a facade result, as used by
`if (!result)` in the findOne handlers: null, the number 0 and the empty
string are falsy; every object and every array (even empty) is truthy. -/
def jsFalsy : JsonVal → Bool
  | .null => true
  | .num n => n = 0
  | .str s => s = ""
  | .arr _ => false
  | .obj _ => false

/-- `Array.isArray(result)`. -/
def isArrayVal : JsonVal → Bool
  | .arr _ => true
  | _ => false

/-- The JavaScript test `result.length === 0`: arrays and strings have a
`length`; on numbers, plain objects and null the property is undefined, and
the strict equality `undefined === 0` is false. -/
def lengthEqZero : JsonVal → Bool
  | .arr elems => elems.isEmpty
  | .str s => s = ""
  | _ => false

/-- An HTTP response body: empty (`res.end()`), JSON (`res.json(v)`), or
plain text (`res.send(message)`). -/
inductive Body where
  | empty
  | json (v : JsonVal)
  | text (s : String)

/-- An HTTP response: status code and body. -/
structure Response where
  status : Nat
  body : Body

/-- A fault raised by the Data Access Facade. -/
structure Fault where
  message : String

/-- The relation models an entity query may include. -/
inductive Relation where
  | vendor
  | ingredientCategory
  | dataSupplier
  | flavor
  | userProfile

/-- One call into the Data Access Facade, recording the operation, the
entity model, and every argument the handler passes. -/
inductive FacadeCall where
  | findOne (model : String) (whereFields : List (String × Int))
      (includes : List Relation)
  | findAll (model : String) (whereFields : List (String × Int))
      (includes : List Relation) (limit : Option Int) (offset : Option Int)
      (orderByIdAsc : Bool)
  | count (model : String)
  | create (model : String) (fields : List (String × JsonVal))
  | update (model : String) (fields : List (String × JsonVal))
      (whereFields : List (String × Int))
  | destroy (model : String) (whereFields : List (String × Int))

/-- The Data Access Facade collaborator: each call either returns a result
value or raises a fault. -/
def Facade : Type := FacadeCall → Except Fault JsonVal

/-- The logging collaborator, abstracted over its internal state. -/
structure Logger (σ : Type) where
  info : σ → String → σ
  error : σ → String → σ

/-- A concrete logger state recording the info and error channels. -/
structure LogBook where
  infos : List String
  errors : List String
deriving DecidableEq

/-- A concrete logger appending each message to the matching channel. -/
def bookLogger : Logger LogBook :=
  { info := fun b m => { b with infos := b.infos ++ [m] },
    error := fun b m => { b with errors := b.errors ++ [m] } }

/-- Everything observable about one handler run: the HTTP response, the
final logger state, and the facade calls issued, in order. -/
structure HandlerOut (σ : Type) where
  response : Response
  logState : σ
  calls : List FacadeCall

/-! ## The Validation Adapter (express-validator) -/

/-- One field-level error descriptor, as express-validator reports it. -/
structure ValidationError where
  value : String
  msg : String
  param : String
  location : String
deriving DecidableEq

/-- The 400 body `{ errors: [...] }` built from the descriptor list. -/
def errorsJson (errors : List ValidationError) : JsonVal :=
  .obj [("errors", .arr (errors.map (fun e =>
    .obj [("value", .str e.value), ("msg", .str e.msg),
          ("param", .str e.param), ("location", .str e.location)])))]

/-- Digits of a decimal literal to the natural number they denote. -/
def digitsToNat (ds : List Char) : Nat :=
  ds.foldl (fun acc c => acc * 10 + (c.toNat - '0'.toNat)) 0

/-- JavaScript `parseInt(s, 10)` (the `toInt` sanitizer): an optional sign
followed by the longest run of leading digits; `none` models NaN. -/
def parseIntJS (s : String) : Option Int :=
  let signAndRest : Int × List Char :=
    match s.data with
    | '-' :: t => (-1, t)
    | '+' :: t => (1, t)
    | t => (1, t)
  let ds := signAndRest.2.takeWhile Char.isDigit
  if ds.isEmpty then none
  else some (signAndRest.1 * (digitsToNat ds : Int))

/-- Core of the validator.js `isNumeric` check (default options): the
pattern is digits, or digits-dot-digits with the integer part possibly
empty, after an optional sign. -/
def isNumericCore (cs : List Char) : Bool :=
  let rest := cs.dropWhile Char.isDigit
  match rest with
  | [] => !cs.isEmpty
  | '.' :: tail => !tail.isEmpty && tail.all Char.isDigit
  | _ => false

/-- validator.js `isNumeric` with default options. -/
def isNumericStr (s : String) : Bool :=
  match s.data with
  | '-' :: t => isNumericCore t
  | '+' :: t => isNumericCore t
  | t => isNumericCore t

/-- validator.js `isInt` shape check: an optional sign followed by one or
more digits. -/
def isIntStr (s : String) : Bool :=
  let core : List Char :=
    match s.data with
    | '-' :: t => t
    | '+' :: t => t
    | t => t
  !core.isEmpty && core.all Char.isDigit

/-- The chain `isNumeric().isInt({ min }).toInt()` on a required numeric
parameter: each failing validator contributes one error descriptor. -/
def checkIntParam (name loc : String) (min : Int) (raw : String) :
    List ValidationError :=
  (if isNumericStr raw then [] else [⟨raw, "Invalid value", name, loc⟩]) ++
  (if isIntStr raw && decide (min ≤ (parseIntJS raw).getD 0) then []
   else [⟨raw, "Invalid value", name, loc⟩])

/-- The chain `optional().isNumeric().toInt()` on a query parameter: an
absent field raises no error; a present non-numeric one raises one. -/
def checkOptionalNumeric (name : String) (raw : Option String) :
    List ValidationError :=
  match raw with
  | none => []
  | some v => if isNumericStr v then [] else [⟨v, "Invalid value", name, "query"⟩]

/-- A query parameter value after the `toInt` sanitizer: absent, NaN, or an
integer. -/
inductive QNum where
  | undef
  | nan
  | int (n : Int)

/-- The sanitized value of an optional numeric query parameter. -/
def coerceQuery (raw : Option String) : QNum :=
  match raw with
  | none => .undef
  | some v =>
    match parseIntJS v with
    | some n => .int n
    | none => .nan

/-- JavaScript `x || d` on a sanitized numeric value: undefined, NaN and 0
are falsy, every other number stands. -/
def jsOrDefault : QNum → Int → Int
  | .undef, d => d
  | .nan, d => d
  | .int n, d => if n = 0 then d else n

/-- JavaScript `x - 1` on a sanitized numeric value: subtracting from
undefined or NaN gives NaN. -/
def qSub1 : QNum → QNum
  | .undef => .nan
  | .nan => .nan
  | .int n => .int (n - 1)

/-- The string express-validator hands to a validator.js check for a body
field: missing and null fields coerce to the empty string, numbers to
their decimal text.  Array and object fields never occur on the routes
under study; their coercion text is a placeholder that, as in JavaScript,
fails every numeric check. -/
def fieldToString : Option JsonVal → String
  | none => ""
  | some .null => ""
  | some (.str s) => s
  | some (.num n) => toString n
  | some (.arr _) => "[array]"
  | some (.obj _) => "[object Object]"

/-- The `isString()` type check on a raw body field. -/
def isStringVal : Option JsonVal → Bool
  | some (.str _) => true
  | _ => false

/-- validator.js `isDecimal` with default options accepts the same shape
as `isNumeric` with default options: optional sign, then digits or
digits-dot-digits with a possibly empty integer part. -/
def isDecimalStr (s : String) : Bool :=
  match s.data with
  | '-' :: t => isNumericCore t
  | '+' :: t => isNumericCore t
  | t => isNumericCore t

/-- The chain `isNumeric().isInt({ min: 1 }).toInt()` on a body field. -/
def checkBodyIntMin1 (name : String) (v : Option JsonVal) :
    List ValidationError :=
  checkIntParam name "body" 1 (fieldToString v)

/-- The chain `isString().isLength({ min: 1 }).withMessage('length')` on a
body field. -/
def checkBodyString1 (name : String) (v : Option JsonVal) :
    List ValidationError :=
  (if isStringVal v then []
   else [⟨fieldToString v, "Invalid value", name, "body"⟩]) ++
  (if 1 ≤ (fieldToString v).length then []
   else [⟨fieldToString v, "length", name, "body"⟩])

/-- The `isDecimal()` check on a body field. -/
def checkBodyDecimal (name : String) (v : Option JsonVal) :
    List ValidationError :=
  if isDecimalStr (fieldToString v) then []
  else [⟨fieldToString v, "Invalid value", name, "body"⟩]

/-! ## The flavor router (src/routes/flavor.js) -/

/-- The raw body of the flavor create and update routes. -/
structure FlavorBody where
  vendorId : Option JsonVal
  name : Option JsonVal
  slug : Option JsonVal
  density : Option JsonVal

/-- The declared validation rules of the flavor create route (also the
body rules of the update route), in declaration order. -/
def flavorBodyChecks (b : FlavorBody) : List ValidationError :=
  checkBodyIntMin1 "vendorId" b.vendorId ++
  checkBodyString1 "name" b.name ++
  checkBodyString1 "slug" b.slug ++
  checkBodyDecimal "density" b.density

/-- GET `/:id` — flavor by id (flavor.js lines 23-65). -/
def flavorGetById {σ : Type} (L : Logger σ) (s : σ) (facade : Facade)
    (rawId : String) : HandlerOut σ :=
  let errors := checkIntParam "id" "params" 1 rawId
  if errors.isEmpty then
    let id := (parseIntJS rawId).getD 0
    let s1 := L.info s ("request for " ++ toString id)
    let call := FacadeCall.findOne "Flavor" [("id", id)] [.vendor]
    match facade call with
    | .ok result =>
      if jsFalsy result then ⟨⟨204, .empty⟩, s1, [call]⟩
      else ⟨⟨200, .json result⟩, s1, [call]⟩
    | .error e => ⟨⟨500, .text e.message⟩, L.error s1 e.message, [call]⟩
  else ⟨⟨400, .json (errorsJson errors)⟩, s, []⟩

/-- POST `/` — flavor create (flavor.js lines 73-119). -/
def flavorCreate {σ : Type} (L : Logger σ) (s : σ) (facade : Facade)
    (b : FlavorBody) : HandlerOut σ :=
  let errors := flavorBodyChecks b
  if errors.isEmpty then
    let vendorId := (parseIntJS (fieldToString b.vendorId)).getD 0
    let s1 := L.info s "request for new flavor"
    let call := FacadeCall.create "Flavor"
      [("vendorId", .num vendorId), ("name", b.name.getD .null),
       ("slug", b.slug.getD .null), ("density", b.density.getD .null)]
    match facade call with
    | .ok result =>
      if lengthEqZero result then ⟨⟨204, .empty⟩, s1, [call]⟩
      else ⟨⟨200, .json result⟩, s1, [call]⟩
    | .error e => ⟨⟨500, .text e.message⟩, L.error s1 e.message, [call]⟩
  else ⟨⟨400, .json (errorsJson errors)⟩, s, []⟩

/-- PUT `/:id` — flavor update (flavor.js lines 128-186). -/
def flavorUpdate {σ : Type} (L : Logger σ) (s : σ) (facade : Facade)
    (rawId : String) (b : FlavorBody) : HandlerOut σ :=
  let errors := checkIntParam "id" "params" 1 rawId ++ flavorBodyChecks b
  if errors.isEmpty then
    let id := (parseIntJS rawId).getD 0
    let vendorId := (parseIntJS (fieldToString b.vendorId)).getD 0
    let s1 := L.info s ("request to update flavor id " ++ toString id)
    let call := FacadeCall.update "Flavor"
      [("vendorId", .num vendorId), ("name", b.name.getD .null),
       ("slug", b.slug.getD .null), ("density", b.density.getD .null)]
      [("id", id)]
    match facade call with
    | .ok result =>
      if lengthEqZero result then ⟨⟨204, .empty⟩, s1, [call]⟩
      else ⟨⟨200, .json result⟩, s1, [call]⟩
    | .error e => ⟨⟨500, .text e.message⟩, L.error s1 e.message, [call]⟩
  else ⟨⟨400, .json (errorsJson errors)⟩, s, []⟩

/-- DELETE `/:id` — flavor delete (flavor.js lines 191-227).  The empty
check is `result.length === 0` alone. -/
def flavorDelete {σ : Type} (L : Logger σ) (s : σ) (facade : Facade)
    (rawId : String) : HandlerOut σ :=
  let errors := checkIntParam "id" "params" 1 rawId
  if errors.isEmpty then
    let id := (parseIntJS rawId).getD 0
    let s1 := L.info s ("request to delete flavor id " ++ toString id)
    let call := FacadeCall.destroy "Flavor" [("id", id)]
    match facade call with
    | .ok result =>
      if lengthEqZero result then ⟨⟨204, .empty⟩, s1, [call]⟩
      else ⟨⟨200, .json result⟩, s1, [call]⟩
    | .error e => ⟨⟨500, .text e.message⟩, L.error s1 e.message, [call]⟩
  else ⟨⟨400, .json (errorsJson errors)⟩, s, []⟩

/-- GET `/:flavorId/identifiers` — identifiers list (flavor.js lines
232-274). -/
def flavorIdentifiersList {σ : Type} (L : Logger σ) (s : σ) (facade : Facade)
    (rawFlavorId : String) : HandlerOut σ :=
  let errors := checkIntParam "flavorId" "params" 1 rawFlavorId
  if errors.isEmpty then
    let flavorId := (parseIntJS rawFlavorId).getD 0
    let s1 := L.info s
      ("request for flavor id " ++ toString flavorId ++ " identifiers")
    let call := FacadeCall.findAll "FlavorIdentifier"
      [("flavorId", flavorId)] [.dataSupplier] none none false
    match facade call with
    | .ok result =>
      if !isArrayVal result || lengthEqZero result then
        ⟨⟨204, .empty⟩, s1, [call]⟩
      else ⟨⟨200, .json result⟩, s1, [call]⟩
    | .error e => ⟨⟨500, .text e.message⟩, L.error s1 e.message, [call]⟩
  else ⟨⟨400, .json (errorsJson errors)⟩, s, []⟩

/-- GET `/:flavorId/identifier/:dataSupplierId` — identifier by pair
(flavor.js lines 280-329). -/
def flavorIdentifierGet {σ : Type} (L : Logger σ) (s : σ) (facade : Facade)
    (rawFlavorId rawDataSupplierId : String) : HandlerOut σ :=
  let errors := checkIntParam "flavorId" "params" 1 rawFlavorId ++
    checkIntParam "dataSupplierId" "params" 1 rawDataSupplierId
  if errors.isEmpty then
    let flavorId := (parseIntJS rawFlavorId).getD 0
    let dataSupplierId := (parseIntJS rawDataSupplierId).getD 0
    let s1 := L.info s
      ("request for flavor id " ++ toString flavorId ++
       " data supplier id " ++ toString dataSupplierId ++ " identifer")
    let call := FacadeCall.findOne "FlavorIdentifier"
      [("flavorId", flavorId), ("dataSupplierId", dataSupplierId)]
      [.dataSupplier]
    match facade call with
    | .ok result =>
      if jsFalsy result then ⟨⟨204, .empty⟩, s1, [call]⟩
      else ⟨⟨200, .json result⟩, s1, [call]⟩
    | .error e => ⟨⟨500, .text e.message⟩, L.error s1 e.message, [call]⟩
  else ⟨⟨400, .json (errorsJson errors)⟩, s, []⟩

/-- The raw body of the flavor identifier create route. -/
structure IdentifierBody where
  dataSupplierId : Option JsonVal
  identifier : Option JsonVal

/-- POST `/:flavorId/identifier` — identifier create (flavor.js lines
336-381). -/
def flavorIdentifierCreate {σ : Type} (L : Logger σ) (s : σ)
    (facade : Facade) (rawFlavorId : String) (b : IdentifierBody) :
    HandlerOut σ :=
  let errors := checkIntParam "flavorId" "params" 1 rawFlavorId ++
    checkBodyIntMin1 "dataSupplierId" b.dataSupplierId ++
    checkBodyString1 "identifier" b.identifier
  if errors.isEmpty then
    let flavorId := (parseIntJS rawFlavorId).getD 0
    let dataSupplierId := (parseIntJS (fieldToString b.dataSupplierId)).getD 0
    let s1 := L.info s
      ("request for new flavor identifier for flavor id " ++ toString flavorId)
    let call := FacadeCall.create "FlavorIdentifier"
      [("flavorId", .num flavorId), ("dataSupplierId", .num dataSupplierId),
       ("identifier", b.identifier.getD .null)]
    match facade call with
    | .ok result =>
      if lengthEqZero result then ⟨⟨204, .empty⟩, s1, [call]⟩
      else ⟨⟨200, .json result⟩, s1, [call]⟩
    | .error e => ⟨⟨500, .text e.message⟩, L.error s1 e.message, [call]⟩
  else ⟨⟨400, .json (errorsJson errors)⟩, s, []⟩

/-- PUT `/:flavorId/identifier/:dataSupplierId` — identifier update
(flavor.js lines 388-441). -/
def flavorIdentifierUpdate {σ : Type} (L : Logger σ) (s : σ)
    (facade : Facade) (rawFlavorId rawDataSupplierId : String)
    (identifier : Option JsonVal) : HandlerOut σ :=
  let errors := checkIntParam "flavorId" "params" 1 rawFlavorId ++
    checkIntParam "dataSupplierId" "params" 1 rawDataSupplierId ++
    checkBodyString1 "identifier" identifier
  if errors.isEmpty then
    let flavorId := (parseIntJS rawFlavorId).getD 0
    let dataSupplierId := (parseIntJS rawDataSupplierId).getD 0
    let s1 := L.info s
      ("request to update flavor id " ++ toString flavorId ++
       " identifier id " ++ toString dataSupplierId)
    let call := FacadeCall.update "FlavorIdentifier"
      [("identifier", identifier.getD .null)]
      [("flavorId", flavorId), ("dataSupplierId", dataSupplierId)]
    match facade call with
    | .ok result =>
      if lengthEqZero result then ⟨⟨204, .empty⟩, s1, [call]⟩
      else ⟨⟨200, .json result⟩, s1, [call]⟩
    | .error e => ⟨⟨500, .text e.message⟩, L.error s1 e.message, [call]⟩
  else ⟨⟨400, .json (errorsJson errors)⟩, s, []⟩

/-- DELETE `/:flavorId/identifier/:dataSupplierId` — identifier delete
(flavor.js lines 447-490).  Unlike the flavor delete, the empty check is
`!result || result.length === 0`, so a falsy result (such as the number 0)
also takes the 204 branch. -/
def flavorIdentifierDelete {σ : Type} (L : Logger σ) (s : σ)
    (facade : Facade) (rawFlavorId rawDataSupplierId : String) :
    HandlerOut σ :=
  let errors := checkIntParam "flavorId" "params" 1 rawFlavorId ++
    checkIntParam "dataSupplierId" "params" 1 rawDataSupplierId
  if errors.isEmpty then
    let flavorId := (parseIntJS rawFlavorId).getD 0
    let dataSupplierId := (parseIntJS rawDataSupplierId).getD 0
    let s1 := L.info s
      ("request to delete flavor id " ++ toString flavorId ++
       " identifier id " ++ toString dataSupplierId)
    let call := FacadeCall.destroy "FlavorIdentifier"
      [("flavorId", flavorId), ("dataSupplierId", dataSupplierId)]
    match facade call with
    | .ok result =>
      if jsFalsy result || lengthEqZero result then ⟨⟨204, .empty⟩, s1, [call]⟩
      else ⟨⟨200, .json result⟩, s1, [call]⟩
    | .error e => ⟨⟨500, .text e.message⟩, L.error s1 e.message, [call]⟩
  else ⟨⟨400, .json (errorsJson errors)⟩, s, []⟩

/-- GET `/:flavorId/notes` — flavor notes list (flavor.js lines 496-542). -/
def flavorNotesList {σ : Type} (L : Logger σ) (s : σ) (facade : Facade)
    (rawFlavorId : String) : HandlerOut σ :=
  let errors := checkIntParam "flavorId" "params" 1 rawFlavorId
  if errors.isEmpty then
    let flavorId := (parseIntJS rawFlavorId).getD 0
    let s1 := L.info s ("request for flavor id " ++ toString flavorId ++ " notes")
    let call := FacadeCall.findAll "UserFlavorNote"
      [("flavorId", flavorId)] [.flavor, .userProfile] none none false
    match facade call with
    | .ok result =>
      if !isArrayVal result || lengthEqZero result then
        ⟨⟨204, .empty⟩, s1, [call]⟩
      else ⟨⟨200, .json result⟩, s1, [call]⟩
    | .error e => ⟨⟨500, .text e.message⟩, L.error s1 e.message, [call]⟩
  else ⟨⟨400, .json (errorsJson errors)⟩, s, []⟩

/-! ## The ingredient router (src/routes/ingredient.js) -/

/-- GET `/:id` — ingredient by id (ingredient.js lines 16-58). -/
def ingredientGetById {σ : Type} (L : Logger σ) (s : σ) (facade : Facade)
    (rawId : String) : HandlerOut σ :=
  let errors := checkIntParam "id" "params" 1 rawId
  if errors.isEmpty then
    let id := (parseIntJS rawId).getD 0
    let s1 := L.info s ("request for " ++ toString id)
    let call := FacadeCall.findOne "Ingredient" [("id", id)]
      [.ingredientCategory]
    match facade call with
    | .ok result =>
      if jsFalsy result then ⟨⟨204, .empty⟩, s1, [call]⟩
      else ⟨⟨200, .json result⟩, s1, [call]⟩
    | .error e => ⟨⟨500, .text e.message⟩, L.error s1 e.message, [call]⟩
  else ⟨⟨400, .json (errorsJson errors)⟩, s, []⟩

/-! ## The ingredients list router -/

/-- GET `/` — paginated ingredients list.  The limit is
`req.query.limit || 20` and the skip count is the literal
`req.query.offset - 1 || 0`. -/
def ingredientsList {σ : Type} (L : Logger σ) (s : σ) (facade : Facade)
    (rawOffset rawLimit : Option String) : HandlerOut σ :=
  let errors := checkOptionalNumeric "offset" rawOffset ++
    checkOptionalNumeric "limit" rawLimit
  if errors.isEmpty then
    let limit := jsOrDefault (coerceQuery rawLimit) 20
    let offset := jsOrDefault (qSub1 (coerceQuery rawOffset)) 0
    let s1 := L.info s ("request for ingredients " ++ toString limit)
    let call := FacadeCall.findAll "Ingredient" [] [.ingredientCategory]
      (some limit) (some offset) false
    match facade call with
    | .ok result =>
      if !isArrayVal result || lengthEqZero result then
        ⟨⟨204, .empty⟩, s1, [call]⟩
      else ⟨⟨200, .json result⟩, s1, [call]⟩
    | .error e => ⟨⟨500, .text e.message⟩, L.error s1 e.message, [call]⟩
  else ⟨⟨400, .json (errorsJson errors)⟩, s, []⟩

/-- GET `/count` — ingredient count.  No validation rules and no 204
branch: every facade success is serialized as JSON with status 200. -/
def ingredientCount {σ : Type} (L : Logger σ) (s : σ) (facade : Facade) :
    HandlerOut σ :=
  let s1 := L.info s "request for ingredient stats"
  let call := FacadeCall.count "Ingredient"
  match facade call with
  | .ok result => ⟨⟨200, .json result⟩, s1, [call]⟩
  | .error e => ⟨⟨500, .text e.message⟩, L.error s1 e.message, [call]⟩

/-! ## The ingredient categories router -/

/-- GET `/` — paginated ingredient categories list, ordered by id
ascending, with the same pagination arithmetic as the ingredients list. -/
def ingredientCategoriesList {σ : Type} (L : Logger σ) (s : σ)
    (facade : Facade) (rawOffset rawLimit : Option String) : HandlerOut σ :=
  let errors := checkOptionalNumeric "offset" rawOffset ++
    checkOptionalNumeric "limit" rawLimit
  if errors.isEmpty then
    let limit := jsOrDefault (coerceQuery rawLimit) 20
    let offset := jsOrDefault (qSub1 (coerceQuery rawOffset)) 0
    let s1 := L.info s ("request for Ingredient categories " ++ toString limit)
    let call := FacadeCall.findAll "IngredientCategory" [] []
      (some limit) (some offset) true
    match facade call with
    | .ok result =>
      if !isArrayVal result || lengthEqZero result then
        ⟨⟨204, .empty⟩, s1, [call]⟩
      else ⟨⟨200, .json result⟩, s1, [call]⟩
    | .error e => ⟨⟨500, .text e.message⟩, L.error s1 e.message, [call]⟩
  else ⟨⟨400, .json (errorsJson errors)⟩, s, []⟩

/-- GET `/count` — ingredient categories count.  No validation rules and
no 204 branch. -/
def ingredientCategoryCount {σ : Type} (L : Logger σ) (s : σ)
    (facade : Facade) : HandlerOut σ :=
  let s1 := L.info s "request for Ingredient categories stats"
  let call := FacadeCall.count "IngredientCategory"
  match facade call with
  | .ok result => ⟨⟨200, .json result⟩, s1, [call]⟩
  | .error e => ⟨⟨500, .text e.message⟩, L.error s1 e.message, [call]⟩

/-! ## The preparations list router -/

/-- Modelled from the spec: the preparations route source file is absent
from the repository (only its test is present).  Per the route table of
the spec it is a paginated `findAll` with no included relation, with the
same optional numeric validators, the same literal pagination arithmetic,
and the uniform response shaping of the other list endpoints. -/
def preparationsList {σ : Type} (L : Logger σ) (s : σ) (facade : Facade)
    (rawOffset rawLimit : Option String) : HandlerOut σ :=
  let errors := checkOptionalNumeric "offset" rawOffset ++
    checkOptionalNumeric "limit" rawLimit
  if errors.isEmpty then
    let limit := jsOrDefault (coerceQuery rawLimit) 20
    let offset := jsOrDefault (qSub1 (coerceQuery rawOffset)) 0
    let s1 := L.info s ("request for preparations " ++ toString limit)
    let call := FacadeCall.findAll "Preparation" [] []
      (some limit) (some offset) false
    match facade call with
    | .ok result =>
      if !isArrayVal result || lengthEqZero result then
        ⟨⟨204, .empty⟩, s1, [call]⟩
      else ⟨⟨200, .json result⟩, s1, [call]⟩
    | .error e => ⟨⟨500, .text e.message⟩, L.error s1 e.message, [call]⟩
  else ⟨⟨400, .json (errorsJson errors)⟩, s, []⟩

/-! ## Helper lemmas -/

/-- On a validated request the ingredients list handler issues exactly the
paged findAll call, whatever the facade then returns. -/
lemma ingredientsList_calls {σ : Type} (L : Logger σ) (s : σ) (f : Facade)
    (ro rl : Option String)
    (hv : checkOptionalNumeric "offset" ro = [])
    (hl : checkOptionalNumeric "limit" rl = []) :
    (ingredientsList L s f ro rl).calls =
      [FacadeCall.findAll "Ingredient" [] [.ingredientCategory]
        (some (jsOrDefault (coerceQuery rl) 20))
        (some (jsOrDefault (qSub1 (coerceQuery ro)) 0)) false] := by
  simp only [ingredientsList, hv, hl, List.append_nil, List.isEmpty_nil,
    if_true]
  split <;> (try split) <;> rfl

/-- Same fact for the ingredient categories list handler. -/
lemma ingredientCategoriesList_calls {σ : Type} (L : Logger σ) (s : σ)
    (f : Facade) (ro rl : Option String)
    (hv : checkOptionalNumeric "offset" ro = [])
    (hl : checkOptionalNumeric "limit" rl = []) :
    (ingredientCategoriesList L s f ro rl).calls =
      [FacadeCall.findAll "IngredientCategory" [] []
        (some (jsOrDefault (coerceQuery rl) 20))
        (some (jsOrDefault (qSub1 (coerceQuery ro)) 0)) true] := by
  simp only [ingredientCategoriesList, hv, hl, List.append_nil,
    List.isEmpty_nil, if_true]
  split <;> (try split) <;> rfl

/-- Same fact for the preparations list handler. -/
lemma preparationsList_calls {σ : Type} (L : Logger σ) (s : σ) (f : Facade)
    (ro rl : Option String)
    (hv : checkOptionalNumeric "offset" ro = [])
    (hl : checkOptionalNumeric "limit" rl = []) :
    (preparationsList L s f ro rl).calls =
      [FacadeCall.findAll "Preparation" [] []
        (some (jsOrDefault (coerceQuery rl) 20))
        (some (jsOrDefault (qSub1 (coerceQuery ro)) 0)) false] := by
  simp only [preparationsList, hv, hl, List.append_nil, List.isEmpty_nil,
    if_true]
  split <;> (try split) <;> rfl

/-! ## Claims -/

/-- C1: the claim says that on every paginated list endpoint a valid
request whose offset lies beyond the row count, so that the facade
returns the empty array, is answered 200 with an empty JSON array.  The
code answers it 204 with an empty body: the literal check
`!Array.isArray(result) || result.length === 0` takes the 204 branch on
the empty array.  This theorem evaluates the three list handlers at the
inputs the repository test suites use for exactly this scenario. -/
theorem c1_empty_list_answers_204 :
    (ingredientsList bookLogger ⟨[], []⟩ (fun _ => .ok (.arr []))
      (some "800000") none).response = ⟨204, .empty⟩ ∧
    (ingredientCategoriesList bookLogger ⟨[], []⟩ (fun _ => .ok (.arr []))
      (some "800000") none).response = ⟨204, .empty⟩ ∧
    (preparationsList bookLogger ⟨[], []⟩ (fun _ => .ok (.arr []))
      (some "9000000") none).response = ⟨204, .empty⟩ := ⟨rfl, rfl, rfl⟩

/-- C5: the claim (and the repository flavor test) says GET `/0` is
answered 204.  The declared validator `isNumeric().isInt({ min: 1 })`
rejects the value 0, so the handler short-circuits with 400 and the error
list, and never reaches the facade — even though the facade would report
the flavor as missing. -/
theorem c5_get_zero_answers_400 :
    (flavorGetById bookLogger ⟨[], []⟩ (fun _ => .ok .null) "0").response =
      ⟨400, .json (errorsJson [⟨"0", "Invalid value", "id", "params"⟩])⟩ ∧
    (flavorGetById bookLogger ⟨[], []⟩ (fun _ => .ok .null) "0").calls = [] :=
  ⟨rfl, rfl⟩

/-- C6 counterexample: on the flavor identifier delete route — a mutation
endpoint — a facade destroy result of the number 0 does not have zero
length (`(0).length` is undefined, so `result.length === 0` is false), yet
the response is 204 and not 200 with the raw result, because that handler
alone also tests `!result`. -/
theorem c6_counterexample :
    lengthEqZero (JsonVal.num 0) = false ∧
    (flavorIdentifierDelete bookLogger ⟨[], []⟩ (fun _ => .ok (.num 0))
      "3" "4").response = ⟨204, .empty⟩ := ⟨rfl, rfl⟩

/-- C9: the two delete handlers shape a zero-row outcome differently.
The flavor identifier delete answers 204 whenever the destroy result is
falsy or has zero length, so the numeric result 0 yields 204; the flavor
delete tests only `result.length === 0`, so the numeric result 0 yields
200 with JSON body 0. -/
theorem c9_delete_zero_row_asymmetry :
    (∀ {σ : Type} (L : Logger σ) (s : σ) (f : Facade)
      (rawF rawD : String) (r : JsonVal),
      checkIntParam "flavorId" "params" 1 rawF ++
        checkIntParam "dataSupplierId" "params" 1 rawD = [] →
      f (FacadeCall.destroy "FlavorIdentifier"
          [("flavorId", (parseIntJS rawF).getD 0),
           ("dataSupplierId", (parseIntJS rawD).getD 0)]) = .ok r →
      (jsFalsy r || lengthEqZero r) = true →
      (flavorIdentifierDelete L s f rawF rawD).response = ⟨204, .empty⟩) ∧
    (∀ {σ : Type} (L : Logger σ) (s : σ) (f : Facade) (rawId : String),
      checkIntParam "id" "params" 1 rawId = [] →
      f (FacadeCall.destroy "Flavor" [("id", (parseIntJS rawId).getD 0)]) =
        .ok (.num 0) →
      (flavorDelete L s f rawId).response = ⟨200, .json (.num 0)⟩) := by
  constructor
  · intro σ L s f rawF rawD r hv hf hr
    simp [flavorIdentifierDelete, hv, hf, hr]
  · intro σ L s f rawId hv hf
    simp [flavorDelete, hv, hf, lengthEqZero]

/-- C9 witness: with two rows addressed by valid ids and a facade destroy
returning the number 0, the identifier delete answers 204 while the
flavor delete answers 200 with JSON body 0. -/
theorem c9_delete_zero_row_asymmetry_witness :
    checkIntParam "flavorId" "params" 1 "7" ++
      checkIntParam "dataSupplierId" "params" 1 "8" = [] ∧
    (flavorIdentifierDelete bookLogger ⟨[], []⟩ (fun _ => .ok (.num 0))
      "7" "8").response = ⟨204, .empty⟩ ∧
    (flavorDelete bookLogger ⟨[], []⟩ (fun _ => .ok (.num 0)) "7").response =
      ⟨200, .json (.num 0)⟩ :=
  ⟨by decide,
   c9_delete_zero_row_asymmetry.1 bookLogger ⟨[], []⟩
     (fun _ => .ok (.num 0)) "7" "8" (.num 0) (by decide) rfl (by decide),
   c9_delete_zero_row_asymmetry.2 bookLogger ⟨[], []⟩
     (fun _ => .ok (.num 0)) "7" (by decide) rfl⟩

/-- C2: on every paginated list endpoint an absent limit query parameter
makes the facade limit 20, and the facade offset is the coerced query
offset minus one when that difference is truthy (nonzero) and 0
otherwise; in particular an absent offset yields skip 0 and an explicit
offset of 0 yields skip -1.  Stated for the ingredients, ingredient
categories and preparations list handlers. -/
theorem c2_pagination_defaults :
    (∀ {σ : Type} (L : Logger σ) (s : σ) (f : Facade) (ro : Option String)
      (o : Int), checkOptionalNumeric "offset" ro = [] →
      coerceQuery ro = QNum.int o →
      (ingredientsList L s f ro none).calls =
        [FacadeCall.findAll "Ingredient" [] [.ingredientCategory] (some 20)
          (some (if o - 1 = 0 then 0 else o - 1)) false]) ∧
    (∀ {σ : Type} (L : Logger σ) (s : σ) (f : Facade),
      (ingredientsList L s f none none).calls =
        [FacadeCall.findAll "Ingredient" [] [.ingredientCategory] (some 20)
          (some 0) false]) ∧
    (∀ {σ : Type} (L : Logger σ) (s : σ) (f : Facade),
      (ingredientsList L s f (some "0") none).calls =
        [FacadeCall.findAll "Ingredient" [] [.ingredientCategory] (some 20)
          (some (-1)) false]) ∧
    (∀ {σ : Type} (L : Logger σ) (s : σ) (f : Facade) (ro : Option String)
      (o : Int), checkOptionalNumeric "offset" ro = [] →
      coerceQuery ro = QNum.int o →
      (ingredientCategoriesList L s f ro none).calls =
        [FacadeCall.findAll "IngredientCategory" [] [] (some 20)
          (some (if o - 1 = 0 then 0 else o - 1)) true]) ∧
    (∀ {σ : Type} (L : Logger σ) (s : σ) (f : Facade),
      (ingredientCategoriesList L s f none none).calls =
        [FacadeCall.findAll "IngredientCategory" [] [] (some 20) (some 0)
          true]) ∧
    (∀ {σ : Type} (L : Logger σ) (s : σ) (f : Facade),
      (ingredientCategoriesList L s f (some "0") none).calls =
        [FacadeCall.findAll "IngredientCategory" [] [] (some 20) (some (-1))
          true]) ∧
    (∀ {σ : Type} (L : Logger σ) (s : σ) (f : Facade) (ro : Option String)
      (o : Int), checkOptionalNumeric "offset" ro = [] →
      coerceQuery ro = QNum.int o →
      (preparationsList L s f ro none).calls =
        [FacadeCall.findAll "Preparation" [] [] (some 20)
          (some (if o - 1 = 0 then 0 else o - 1)) false]) ∧
    (∀ {σ : Type} (L : Logger σ) (s : σ) (f : Facade),
      (preparationsList L s f none none).calls =
        [FacadeCall.findAll "Preparation" [] [] (some 20) (some 0) false]) ∧
    (∀ {σ : Type} (L : Logger σ) (s : σ) (f : Facade),
      (preparationsList L s f (some "0") none).calls =
        [FacadeCall.findAll "Preparation" [] [] (some 20) (some (-1))
          false]) := by
  refine ⟨?_, ?_, ?_, ?_, ?_, ?_, ?_, ?_, ?_⟩
  · intro σ L s f ro o hv hc
    rw [ingredientsList_calls L s f ro none hv rfl, hc]
    simp [qSub1, jsOrDefault, coerceQuery]
  · intro σ L s f
    rw [ingredientsList_calls L s f none none rfl rfl]
    rfl
  · intro σ L s f
    rw [ingredientsList_calls L s f (some "0") none (by decide) rfl]
    rfl
  · intro σ L s f ro o hv hc
    rw [ingredientCategoriesList_calls L s f ro none hv rfl, hc]
    simp [qSub1, jsOrDefault, coerceQuery]
  · intro σ L s f
    rw [ingredientCategoriesList_calls L s f none none rfl rfl]
    rfl
  · intro σ L s f
    rw [ingredientCategoriesList_calls L s f (some "0") none (by decide) rfl]
    rfl
  · intro σ L s f ro o hv hc
    rw [preparationsList_calls L s f ro none hv rfl, hc]
    simp [qSub1, jsOrDefault, coerceQuery]
  · intro σ L s f
    rw [preparationsList_calls L s f none none rfl rfl]
    rfl
  · intro σ L s f
    rw [preparationsList_calls L s f (some "0") none (by decide) rfl]
    rfl

/-- C2 witness: the ingredients list with query offset 5 and no limit
issues a findAll with limit 20 and skip 4. -/
theorem c2_pagination_defaults_witness :
    checkOptionalNumeric "offset" (some "5") = [] ∧
    coerceQuery (some "5") = QNum.int 5 ∧
    (ingredientsList bookLogger ⟨[], []⟩ (fun _ => .ok (.arr []))
      (some "5") none).calls =
      [FacadeCall.findAll "Ingredient" [] [.ingredientCategory] (some 20)
        (some (if (5 : Int) - 1 = 0 then 0 else 5 - 1)) false] :=
  ⟨by decide, rfl,
   c2_pagination_defaults.1 bookLogger ⟨[], []⟩ (fun _ => .ok (.arr []))
     (some "5") 5 (by decide) rfl⟩

/-- C3: on every route with declared validation rules, a request failing
validation is answered 400 with a JSON body holding the error-descriptor
list, and the Data Access Facade is never invoked; a non-numeric value in
a required numeric parameter, or in a present optional numeric query
parameter, always fails validation. -/
theorem c3_validation_short_circuit :
    (∀ {σ : Type} (L : Logger σ) (s : σ) (f : Facade) (rawId : String),
      (checkIntParam "id" "params" 1 rawId).isEmpty = false →
      (flavorGetById L s f rawId).response =
        ⟨400, .json (errorsJson (checkIntParam "id" "params" 1 rawId))⟩ ∧
      (flavorGetById L s f rawId).calls = []) ∧
    (∀ {σ : Type} (L : Logger σ) (s : σ) (f : Facade) (b : FlavorBody),
      (flavorBodyChecks b).isEmpty = false →
      (flavorCreate L s f b).response =
        ⟨400, .json (errorsJson (flavorBodyChecks b))⟩ ∧
      (flavorCreate L s f b).calls = []) ∧
    (∀ {σ : Type} (L : Logger σ) (s : σ) (f : Facade) (rawId : String)
      (b : FlavorBody),
      (checkIntParam "id" "params" 1 rawId ++ flavorBodyChecks b).isEmpty =
        false →
      (flavorUpdate L s f rawId b).response =
        ⟨400, .json (errorsJson
          (checkIntParam "id" "params" 1 rawId ++ flavorBodyChecks b))⟩ ∧
      (flavorUpdate L s f rawId b).calls = []) ∧
    (∀ {σ : Type} (L : Logger σ) (s : σ) (f : Facade) (rawId : String),
      (checkIntParam "id" "params" 1 rawId).isEmpty = false →
      (flavorDelete L s f rawId).response =
        ⟨400, .json (errorsJson (checkIntParam "id" "params" 1 rawId))⟩ ∧
      (flavorDelete L s f rawId).calls = []) ∧
    (∀ {σ : Type} (L : Logger σ) (s : σ) (f : Facade) (rawF : String),
      (checkIntParam "flavorId" "params" 1 rawF).isEmpty = false →
      (flavorIdentifiersList L s f rawF).response =
        ⟨400, .json (errorsJson (checkIntParam "flavorId" "params" 1 rawF))⟩ ∧
      (flavorIdentifiersList L s f rawF).calls = []) ∧
    (∀ {σ : Type} (L : Logger σ) (s : σ) (f : Facade) (rawF rawD : String),
      (checkIntParam "flavorId" "params" 1 rawF ++
        checkIntParam "dataSupplierId" "params" 1 rawD).isEmpty = false →
      (flavorIdentifierGet L s f rawF rawD).response =
        ⟨400, .json (errorsJson (checkIntParam "flavorId" "params" 1 rawF ++
          checkIntParam "dataSupplierId" "params" 1 rawD))⟩ ∧
      (flavorIdentifierGet L s f rawF rawD).calls = []) ∧
    (∀ {σ : Type} (L : Logger σ) (s : σ) (f : Facade) (rawF : String)
      (b : IdentifierBody),
      (checkIntParam "flavorId" "params" 1 rawF ++
        checkBodyIntMin1 "dataSupplierId" b.dataSupplierId ++
        checkBodyString1 "identifier" b.identifier).isEmpty = false →
      (flavorIdentifierCreate L s f rawF b).response =
        ⟨400, .json (errorsJson (checkIntParam "flavorId" "params" 1 rawF ++
          checkBodyIntMin1 "dataSupplierId" b.dataSupplierId ++
          checkBodyString1 "identifier" b.identifier))⟩ ∧
      (flavorIdentifierCreate L s f rawF b).calls = []) ∧
    (∀ {σ : Type} (L : Logger σ) (s : σ) (f : Facade) (rawF rawD : String)
      (idv : Option JsonVal),
      (checkIntParam "flavorId" "params" 1 rawF ++
        checkIntParam "dataSupplierId" "params" 1 rawD ++
        checkBodyString1 "identifier" idv).isEmpty = false →
      (flavorIdentifierUpdate L s f rawF rawD idv).response =
        ⟨400, .json (errorsJson (checkIntParam "flavorId" "params" 1 rawF ++
          checkIntParam "dataSupplierId" "params" 1 rawD ++
          checkBodyString1 "identifier" idv))⟩ ∧
      (flavorIdentifierUpdate L s f rawF rawD idv).calls = []) ∧
    (∀ {σ : Type} (L : Logger σ) (s : σ) (f : Facade) (rawF rawD : String),
      (checkIntParam "flavorId" "params" 1 rawF ++
        checkIntParam "dataSupplierId" "params" 1 rawD).isEmpty = false →
      (flavorIdentifierDelete L s f rawF rawD).response =
        ⟨400, .json (errorsJson (checkIntParam "flavorId" "params" 1 rawF ++
          checkIntParam "dataSupplierId" "params" 1 rawD))⟩ ∧
      (flavorIdentifierDelete L s f rawF rawD).calls = []) ∧
    (∀ {σ : Type} (L : Logger σ) (s : σ) (f : Facade) (rawF : String),
      (checkIntParam "flavorId" "params" 1 rawF).isEmpty = false →
      (flavorNotesList L s f rawF).response =
        ⟨400, .json (errorsJson (checkIntParam "flavorId" "params" 1 rawF))⟩ ∧
      (flavorNotesList L s f rawF).calls = []) ∧
    (∀ {σ : Type} (L : Logger σ) (s : σ) (f : Facade) (rawId : String),
      (checkIntParam "id" "params" 1 rawId).isEmpty = false →
      (ingredientGetById L s f rawId).response =
        ⟨400, .json (errorsJson (checkIntParam "id" "params" 1 rawId))⟩ ∧
      (ingredientGetById L s f rawId).calls = []) ∧
    (∀ {σ : Type} (L : Logger σ) (s : σ) (f : Facade) (ro rl : Option String),
      (checkOptionalNumeric "offset" ro ++
        checkOptionalNumeric "limit" rl).isEmpty = false →
      (ingredientsList L s f ro rl).response =
        ⟨400, .json (errorsJson (checkOptionalNumeric "offset" ro ++
          checkOptionalNumeric "limit" rl))⟩ ∧
      (ingredientsList L s f ro rl).calls = []) ∧
    (∀ {σ : Type} (L : Logger σ) (s : σ) (f : Facade) (ro rl : Option String),
      (checkOptionalNumeric "offset" ro ++
        checkOptionalNumeric "limit" rl).isEmpty = false →
      (ingredientCategoriesList L s f ro rl).response =
        ⟨400, .json (errorsJson (checkOptionalNumeric "offset" ro ++
          checkOptionalNumeric "limit" rl))⟩ ∧
      (ingredientCategoriesList L s f ro rl).calls = []) ∧
    (∀ {σ : Type} (L : Logger σ) (s : σ) (f : Facade) (ro rl : Option String),
      (checkOptionalNumeric "offset" ro ++
        checkOptionalNumeric "limit" rl).isEmpty = false →
      (preparationsList L s f ro rl).response =
        ⟨400, .json (errorsJson (checkOptionalNumeric "offset" ro ++
          checkOptionalNumeric "limit" rl))⟩ ∧
      (preparationsList L s f ro rl).calls = []) ∧
    (∀ (name loc : String) (min : Int) (raw : String),
      isNumericStr raw = false →
      (checkIntParam name loc min raw).isEmpty = false) ∧
    (∀ (name raw : String), isNumericStr raw = false →
      (checkOptionalNumeric name (some raw)).isEmpty = false) := by
  refine ⟨?_, ?_, ?_, ?_, ?_, ?_, ?_, ?_, ?_, ?_, ?_, ?_, ?_, ?_, ?_, ?_⟩
  · intro σ L s f rawId h
    simp [flavorGetById, h]
  · intro σ L s f b h
    simp [flavorCreate, h]
  · intro σ L s f rawId b h
    simp [flavorUpdate, h]
  · intro σ L s f rawId h
    simp [flavorDelete, h]
  · intro σ L s f rawF h
    simp [flavorIdentifiersList, h]
  · intro σ L s f rawF rawD h
    simp [flavorIdentifierGet, h]
  · intro σ L s f rawF b h
    simp only [flavorIdentifierCreate]
    rw [if_neg (by simp only [h]; decide)]
    exact ⟨rfl, rfl⟩
  · intro σ L s f rawF rawD idv h
    simp only [flavorIdentifierUpdate]
    rw [if_neg (by simp only [h]; decide)]
    exact ⟨rfl, rfl⟩
  · intro σ L s f rawF rawD h
    simp [flavorIdentifierDelete, h]
  · intro σ L s f rawF h
    simp [flavorNotesList, h]
  · intro σ L s f rawId h
    simp [ingredientGetById, h]
  · intro σ L s f ro rl h
    simp [ingredientsList, h]
  · intro σ L s f ro rl h
    simp [ingredientCategoriesList, h]
  · intro σ L s f ro rl h
    simp [preparationsList, h]
  · intro name loc min raw h
    simp [checkIntParam, h]
  · intro name raw h
    simp [checkOptionalNumeric, h]

/-- C3 witness: GET `/ham` on the flavor route fails validation, answers
400 with the error list, and issues no facade call; a limit of `stop` on
the ingredients list does the same. -/
theorem c3_validation_short_circuit_witness :
    (checkIntParam "id" "params" 1 "ham").isEmpty = false ∧
    (flavorGetById bookLogger ⟨[], []⟩ (fun _ => .ok .null) "ham").response =
      ⟨400, .json (errorsJson (checkIntParam "id" "params" 1 "ham"))⟩ ∧
    (flavorGetById bookLogger ⟨[], []⟩ (fun _ => .ok .null) "ham").calls =
      [] ∧
    (ingredientsList bookLogger ⟨[], []⟩ (fun _ => .ok (.arr [])) none
      (some "stop")).response =
      ⟨400, .json (errorsJson (checkOptionalNumeric "offset" none ++
        checkOptionalNumeric "limit" (some "stop")))⟩ :=
  ⟨by decide,
   (c3_validation_short_circuit.1 bookLogger ⟨[], []⟩ (fun _ => .ok .null)
     "ham" (by decide)).1,
   (c3_validation_short_circuit.1 bookLogger ⟨[], []⟩ (fun _ => .ok .null)
     "ham" (by decide)).2,
   (c3_validation_short_circuit.2.2.2.2.2.2.2.2.2.2.2.1 bookLogger ⟨[], []⟩
     (fun _ => .ok (.arr [])) none (some "stop") (by decide)).1⟩

/-- C4: on each single-entity GET route (flavor by id, ingredient by id,
flavor identifier by pair) with a valid id, a null findOne result is
answered 204 with an empty body, and an entity result is answered 200
with the raw result as JSON body; the sole facade call is a findOne
naming the declared included relation, so the body carries exactly the
fields (own and included) the facade returned for that include. -/
theorem c4_find_one_shaping :
    (∀ {σ : Type} (L : Logger σ) (s : σ) (f : Facade) (rawId : String),
      (checkIntParam "id" "params" 1 rawId).isEmpty = true →
      (f (FacadeCall.findOne "Flavor" [("id", (parseIntJS rawId).getD 0)]
          [.vendor]) = .ok .null →
        (flavorGetById L s f rawId).response = ⟨204, .empty⟩) ∧
      (∀ fields, f (FacadeCall.findOne "Flavor"
          [("id", (parseIntJS rawId).getD 0)] [.vendor]) = .ok (.obj fields) →
        (flavorGetById L s f rawId).response = ⟨200, .json (.obj fields)⟩ ∧
        (flavorGetById L s f rawId).calls =
          [FacadeCall.findOne "Flavor" [("id", (parseIntJS rawId).getD 0)]
            [.vendor]])) ∧
    (∀ {σ : Type} (L : Logger σ) (s : σ) (f : Facade) (rawId : String),
      (checkIntParam "id" "params" 1 rawId).isEmpty = true →
      (f (FacadeCall.findOne "Ingredient" [("id", (parseIntJS rawId).getD 0)]
          [.ingredientCategory]) = .ok .null →
        (ingredientGetById L s f rawId).response = ⟨204, .empty⟩) ∧
      (∀ fields, f (FacadeCall.findOne "Ingredient"
          [("id", (parseIntJS rawId).getD 0)] [.ingredientCategory]) =
          .ok (.obj fields) →
        (ingredientGetById L s f rawId).response =
          ⟨200, .json (.obj fields)⟩ ∧
        (ingredientGetById L s f rawId).calls =
          [FacadeCall.findOne "Ingredient" [("id", (parseIntJS rawId).getD 0)]
            [.ingredientCategory]])) ∧
    (∀ {σ : Type} (L : Logger σ) (s : σ) (f : Facade) (rawF rawD : String),
      (checkIntParam "flavorId" "params" 1 rawF ++
        checkIntParam "dataSupplierId" "params" 1 rawD).isEmpty = true →
      (f (FacadeCall.findOne "FlavorIdentifier"
          [("flavorId", (parseIntJS rawF).getD 0),
           ("dataSupplierId", (parseIntJS rawD).getD 0)] [.dataSupplier]) =
          .ok .null →
        (flavorIdentifierGet L s f rawF rawD).response = ⟨204, .empty⟩) ∧
      (∀ fields, f (FacadeCall.findOne "FlavorIdentifier"
          [("flavorId", (parseIntJS rawF).getD 0),
           ("dataSupplierId", (parseIntJS rawD).getD 0)] [.dataSupplier]) =
          .ok (.obj fields) →
        (flavorIdentifierGet L s f rawF rawD).response =
          ⟨200, .json (.obj fields)⟩ ∧
        (flavorIdentifierGet L s f rawF rawD).calls =
          [FacadeCall.findOne "FlavorIdentifier"
            [("flavorId", (parseIntJS rawF).getD 0),
             ("dataSupplierId", (parseIntJS rawD).getD 0)]
            [.dataSupplier]])) := by
  refine ⟨?_, ?_, ?_⟩
  · intro σ L s f rawId hv
    constructor
    · intro hf
      simp [flavorGetById, hv, hf, jsFalsy]
    · intro fields hf
      simp [flavorGetById, hv, hf, jsFalsy]
  · intro σ L s f rawId hv
    constructor
    · intro hf
      simp [ingredientGetById, hv, hf, jsFalsy]
    · intro fields hf
      simp [ingredientGetById, hv, hf, jsFalsy]
  · intro σ L s f rawF rawD hv
    constructor
    · intro hf
      simp [flavorIdentifierGet, hv, hf, jsFalsy]
    · intro fields hf
      simp [flavorIdentifierGet, hv, hf, jsFalsy]

/-- C4 witness: GET `/123` on the flavor route with a facade row carrying
the flavor and joined vendor fields is answered 200 with exactly that
row as JSON body, fetched with the vendor include; a facade null for the
same id is answered 204. -/
theorem c4_find_one_shaping_witness :
    (checkIntParam "id" "params" 1 "123").isEmpty = true ∧
    (flavorGetById bookLogger ⟨[], []⟩
      (fun _ => .ok (.obj [("vendor_code", .str "CAP"),
        ("vendor_name", .str "Capella"), ("flavor_name", .str "Pear")]))
      "123").response =
      ⟨200, .json (.obj [("vendor_code", .str "CAP"),
        ("vendor_name", .str "Capella"), ("flavor_name", .str "Pear")])⟩ ∧
    (flavorGetById bookLogger ⟨[], []⟩ (fun _ => .ok .null) "123").response =
      ⟨204, .empty⟩ :=
  ⟨by decide,
   ((c4_find_one_shaping.1 bookLogger ⟨[], []⟩
      (fun _ => .ok (.obj [("vendor_code", .str "CAP"),
        ("vendor_name", .str "Capella"), ("flavor_name", .str "Pear")]))
      "123" (by decide)).2
      [("vendor_code", .str "CAP"), ("vendor_name", .str "Capella"),
       ("flavor_name", .str "Pear")] rfl).1,
   (c4_find_one_shaping.1 bookLogger ⟨[], []⟩ (fun _ => .ok .null) "123"
     (by decide)).1 rfl⟩

/-- C6 as amended: on the create, update and flavor delete mutation
routes with a valid request the response is 204 exactly when the facade
result has zero length and 200 with the raw JSON result otherwise; the
flavor identifier delete route alone also answers 204 when the result is
merely falsy (such as the number 0), answering 200 with the raw result
only for a truthy result of nonzero length. -/
theorem c6_mutation_shaping_amended :
    (∀ {σ : Type} (L : Logger σ) (s : σ) (f : Facade) (b : FlavorBody)
      (r : JsonVal), (flavorBodyChecks b).isEmpty = true →
      f (FacadeCall.create "Flavor"
        [("vendorId", .num ((parseIntJS (fieldToString b.vendorId)).getD 0)),
         ("name", b.name.getD .null), ("slug", b.slug.getD .null),
         ("density", b.density.getD .null)]) = .ok r →
      (flavorCreate L s f b).response =
        if lengthEqZero r then ⟨204, .empty⟩ else ⟨200, .json r⟩) ∧
    (∀ {σ : Type} (L : Logger σ) (s : σ) (f : Facade) (rawId : String)
      (b : FlavorBody) (r : JsonVal),
      (checkIntParam "id" "params" 1 rawId ++ flavorBodyChecks b).isEmpty =
        true →
      f (FacadeCall.update "Flavor"
        [("vendorId", .num ((parseIntJS (fieldToString b.vendorId)).getD 0)),
         ("name", b.name.getD .null), ("slug", b.slug.getD .null),
         ("density", b.density.getD .null)]
        [("id", (parseIntJS rawId).getD 0)]) = .ok r →
      (flavorUpdate L s f rawId b).response =
        if lengthEqZero r then ⟨204, .empty⟩ else ⟨200, .json r⟩) ∧
    (∀ {σ : Type} (L : Logger σ) (s : σ) (f : Facade) (rawId : String)
      (r : JsonVal), (checkIntParam "id" "params" 1 rawId).isEmpty = true →
      f (FacadeCall.destroy "Flavor" [("id", (parseIntJS rawId).getD 0)]) =
        .ok r →
      (flavorDelete L s f rawId).response =
        if lengthEqZero r then ⟨204, .empty⟩ else ⟨200, .json r⟩) ∧
    (∀ {σ : Type} (L : Logger σ) (s : σ) (f : Facade) (rawF : String)
      (b : IdentifierBody) (r : JsonVal),
      (checkIntParam "flavorId" "params" 1 rawF ++
        checkBodyIntMin1 "dataSupplierId" b.dataSupplierId ++
        checkBodyString1 "identifier" b.identifier).isEmpty = true →
      f (FacadeCall.create "FlavorIdentifier"
        [("flavorId", .num ((parseIntJS rawF).getD 0)),
         ("dataSupplierId",
          .num ((parseIntJS (fieldToString b.dataSupplierId)).getD 0)),
         ("identifier", b.identifier.getD .null)]) = .ok r →
      (flavorIdentifierCreate L s f rawF b).response =
        if lengthEqZero r then ⟨204, .empty⟩ else ⟨200, .json r⟩) ∧
    (∀ {σ : Type} (L : Logger σ) (s : σ) (f : Facade) (rawF rawD : String)
      (idv : Option JsonVal) (r : JsonVal),
      (checkIntParam "flavorId" "params" 1 rawF ++
        checkIntParam "dataSupplierId" "params" 1 rawD ++
        checkBodyString1 "identifier" idv).isEmpty = true →
      f (FacadeCall.update "FlavorIdentifier"
        [("identifier", idv.getD .null)]
        [("flavorId", (parseIntJS rawF).getD 0),
         ("dataSupplierId", (parseIntJS rawD).getD 0)]) = .ok r →
      (flavorIdentifierUpdate L s f rawF rawD idv).response =
        if lengthEqZero r then ⟨204, .empty⟩ else ⟨200, .json r⟩) ∧
    (∀ {σ : Type} (L : Logger σ) (s : σ) (f : Facade) (rawF rawD : String)
      (r : JsonVal),
      (checkIntParam "flavorId" "params" 1 rawF ++
        checkIntParam "dataSupplierId" "params" 1 rawD).isEmpty = true →
      f (FacadeCall.destroy "FlavorIdentifier"
        [("flavorId", (parseIntJS rawF).getD 0),
         ("dataSupplierId", (parseIntJS rawD).getD 0)]) = .ok r →
      (flavorIdentifierDelete L s f rawF rawD).response =
        if jsFalsy r || lengthEqZero r then ⟨204, .empty⟩
        else ⟨200, .json r⟩) := by
  refine ⟨?_, ?_, ?_, ?_, ?_, ?_⟩
  · intro σ L s f b r hv hf
    cases hr : lengthEqZero r <;> simp [flavorCreate, hv, hf, hr]
  · intro σ L s f rawId b r hv hf
    cases hr : lengthEqZero r <;> simp [flavorUpdate, hv, hf, hr]
  · intro σ L s f rawId r hv hf
    cases hr : lengthEqZero r <;> simp [flavorDelete, hv, hf, hr]
  · intro σ L s f rawF b r hv hf
    simp at hv
    cases hr : lengthEqZero r <;> simp [flavorIdentifierCreate, hv, hf, hr]
  · intro σ L s f rawF rawD idv r hv hf
    simp at hv
    cases hr : lengthEqZero r <;> simp [flavorIdentifierUpdate, hv, hf, hr]
  · intro σ L s f rawF rawD r hv hf
    cases hr : (jsFalsy r || lengthEqZero r) <;>
      simp [flavorIdentifierDelete, hv, hf, hr]

/-- C6 witness: a flavor delete whose facade destroy reports the number 0
is answered 200 with JSON body 0 (the result does not have zero length),
and a flavor create whose facade returns the created row is answered 200
with that row. -/
theorem c6_mutation_shaping_amended_witness :
    (checkIntParam "id" "params" 1 "9").isEmpty = true ∧
    (flavorDelete bookLogger ⟨[], []⟩ (fun _ => .ok (.num 0)) "9").response =
      ⟨200, .json (.num 0)⟩ ∧
    (flavorCreate bookLogger ⟨[], []⟩
      (fun _ => .ok (.obj [("id", .num 42)]))
      ⟨some (.num 3), some (.str "Pear"), some (.str "pear"),
       some (.str "1.036")⟩).response = ⟨200, .json (.obj [("id", .num 42)])⟩ :=
  ⟨by decide,
   by
    have h := c6_mutation_shaping_amended.2.2.1 bookLogger ⟨[], []⟩
      (fun _ => .ok (.num 0)) "9" (.num 0) (by decide) rfl
    simpa using h,
   by
    have h := c6_mutation_shaping_amended.1 bookLogger ⟨[], []⟩
      (fun _ => .ok (.obj [("id", .num 42)]))
      ⟨some (.num 3), some (.str "Pear"), some (.str "pear"),
       some (.str "1.036")⟩ (.obj [("id", .num 42)]) (by decide) rfl
    simpa using h⟩

/-- C7: on every endpoint a facade fault on a valid request is caught at
the handler boundary: the response is 500 with the fault message as a
plain-text body, the error channel of the log receives exactly the fault
message, and exactly one facade call was issued — the fault is never
retried. -/
theorem c7_fault_shaping :
    (∀ (e : Fault) (f : Facade) (rawId : String),
      (checkIntParam "id" "params" 1 rawId).isEmpty = true →
      f (FacadeCall.findOne "Flavor" [("id", (parseIntJS rawId).getD 0)]
        [.vendor]) = .error e →
      (flavorGetById bookLogger ⟨[], []⟩ f rawId).response =
        ⟨500, .text e.message⟩ ∧
      (flavorGetById bookLogger ⟨[], []⟩ f rawId).calls.length = 1 ∧
      (flavorGetById bookLogger ⟨[], []⟩ f rawId).logState.errors =
        [e.message]) ∧
    (∀ (e : Fault) (f : Facade) (b : FlavorBody),
      (flavorBodyChecks b).isEmpty = true →
      f (FacadeCall.create "Flavor"
        [("vendorId", .num ((parseIntJS (fieldToString b.vendorId)).getD 0)),
         ("name", b.name.getD .null), ("slug", b.slug.getD .null),
         ("density", b.density.getD .null)]) = .error e →
      (flavorCreate bookLogger ⟨[], []⟩ f b).response =
        ⟨500, .text e.message⟩ ∧
      (flavorCreate bookLogger ⟨[], []⟩ f b).calls.length = 1 ∧
      (flavorCreate bookLogger ⟨[], []⟩ f b).logState.errors =
        [e.message]) ∧
    (∀ (e : Fault) (f : Facade) (rawId : String) (b : FlavorBody),
      (checkIntParam "id" "params" 1 rawId ++ flavorBodyChecks b).isEmpty =
        true →
      f (FacadeCall.update "Flavor"
        [("vendorId", .num ((parseIntJS (fieldToString b.vendorId)).getD 0)),
         ("name", b.name.getD .null), ("slug", b.slug.getD .null),
         ("density", b.density.getD .null)]
        [("id", (parseIntJS rawId).getD 0)]) = .error e →
      (flavorUpdate bookLogger ⟨[], []⟩ f rawId b).response =
        ⟨500, .text e.message⟩ ∧
      (flavorUpdate bookLogger ⟨[], []⟩ f rawId b).calls.length = 1 ∧
      (flavorUpdate bookLogger ⟨[], []⟩ f rawId b).logState.errors =
        [e.message]) ∧
    (∀ (e : Fault) (f : Facade) (rawId : String),
      (checkIntParam "id" "params" 1 rawId).isEmpty = true →
      f (FacadeCall.destroy "Flavor" [("id", (parseIntJS rawId).getD 0)]) =
        .error e →
      (flavorDelete bookLogger ⟨[], []⟩ f rawId).response =
        ⟨500, .text e.message⟩ ∧
      (flavorDelete bookLogger ⟨[], []⟩ f rawId).calls.length = 1 ∧
      (flavorDelete bookLogger ⟨[], []⟩ f rawId).logState.errors =
        [e.message]) ∧
    (∀ (e : Fault) (f : Facade) (rawF : String),
      (checkIntParam "flavorId" "params" 1 rawF).isEmpty = true →
      f (FacadeCall.findAll "FlavorIdentifier"
        [("flavorId", (parseIntJS rawF).getD 0)] [.dataSupplier] none none
        false) = .error e →
      (flavorIdentifiersList bookLogger ⟨[], []⟩ f rawF).response =
        ⟨500, .text e.message⟩ ∧
      (flavorIdentifiersList bookLogger ⟨[], []⟩ f rawF).calls.length = 1 ∧
      (flavorIdentifiersList bookLogger ⟨[], []⟩ f rawF).logState.errors =
        [e.message]) ∧
    (∀ (e : Fault) (f : Facade) (rawF rawD : String),
      (checkIntParam "flavorId" "params" 1 rawF ++
        checkIntParam "dataSupplierId" "params" 1 rawD).isEmpty = true →
      f (FacadeCall.findOne "FlavorIdentifier"
        [("flavorId", (parseIntJS rawF).getD 0),
         ("dataSupplierId", (parseIntJS rawD).getD 0)] [.dataSupplier]) =
        .error e →
      (flavorIdentifierGet bookLogger ⟨[], []⟩ f rawF rawD).response =
        ⟨500, .text e.message⟩ ∧
      (flavorIdentifierGet bookLogger ⟨[], []⟩ f rawF rawD).calls.length =
        1 ∧
      (flavorIdentifierGet bookLogger ⟨[], []⟩ f rawF rawD).logState.errors =
        [e.message]) ∧
    (∀ (e : Fault) (f : Facade) (rawF : String) (b : IdentifierBody),
      (checkIntParam "flavorId" "params" 1 rawF ++
        checkBodyIntMin1 "dataSupplierId" b.dataSupplierId ++
        checkBodyString1 "identifier" b.identifier).isEmpty = true →
      f (FacadeCall.create "FlavorIdentifier"
        [("flavorId", .num ((parseIntJS rawF).getD 0)),
         ("dataSupplierId",
          .num ((parseIntJS (fieldToString b.dataSupplierId)).getD 0)),
         ("identifier", b.identifier.getD .null)]) = .error e →
      (flavorIdentifierCreate bookLogger ⟨[], []⟩ f rawF b).response =
        ⟨500, .text e.message⟩ ∧
      (flavorIdentifierCreate bookLogger ⟨[], []⟩ f rawF b).calls.length =
        1 ∧
      (flavorIdentifierCreate bookLogger ⟨[], []⟩ f rawF
        b).logState.errors = [e.message]) ∧
    (∀ (e : Fault) (f : Facade) (rawF rawD : String) (idv : Option JsonVal),
      (checkIntParam "flavorId" "params" 1 rawF ++
        checkIntParam "dataSupplierId" "params" 1 rawD ++
        checkBodyString1 "identifier" idv).isEmpty = true →
      f (FacadeCall.update "FlavorIdentifier"
        [("identifier", idv.getD .null)]
        [("flavorId", (parseIntJS rawF).getD 0),
         ("dataSupplierId", (parseIntJS rawD).getD 0)]) = .error e →
      (flavorIdentifierUpdate bookLogger ⟨[], []⟩ f rawF rawD idv).response =
        ⟨500, .text e.message⟩ ∧
      (flavorIdentifierUpdate bookLogger ⟨[], []⟩ f rawF rawD
        idv).calls.length = 1 ∧
      (flavorIdentifierUpdate bookLogger ⟨[], []⟩ f rawF rawD
        idv).logState.errors = [e.message]) ∧
    (∀ (e : Fault) (f : Facade) (rawF rawD : String),
      (checkIntParam "flavorId" "params" 1 rawF ++
        checkIntParam "dataSupplierId" "params" 1 rawD).isEmpty = true →
      f (FacadeCall.destroy "FlavorIdentifier"
        [("flavorId", (parseIntJS rawF).getD 0),
         ("dataSupplierId", (parseIntJS rawD).getD 0)]) = .error e →
      (flavorIdentifierDelete bookLogger ⟨[], []⟩ f rawF rawD).response =
        ⟨500, .text e.message⟩ ∧
      (flavorIdentifierDelete bookLogger ⟨[], []⟩ f rawF rawD).calls.length =
        1 ∧
      (flavorIdentifierDelete bookLogger ⟨[], []⟩ f rawF
        rawD).logState.errors = [e.message]) ∧
    (∀ (e : Fault) (f : Facade) (rawF : String),
      (checkIntParam "flavorId" "params" 1 rawF).isEmpty = true →
      f (FacadeCall.findAll "UserFlavorNote"
        [("flavorId", (parseIntJS rawF).getD 0)] [.flavor, .userProfile]
        none none false) = .error e →
      (flavorNotesList bookLogger ⟨[], []⟩ f rawF).response =
        ⟨500, .text e.message⟩ ∧
      (flavorNotesList bookLogger ⟨[], []⟩ f rawF).calls.length = 1 ∧
      (flavorNotesList bookLogger ⟨[], []⟩ f rawF).logState.errors =
        [e.message]) ∧
    (∀ (e : Fault) (f : Facade) (rawId : String),
      (checkIntParam "id" "params" 1 rawId).isEmpty = true →
      f (FacadeCall.findOne "Ingredient" [("id", (parseIntJS rawId).getD 0)]
        [.ingredientCategory]) = .error e →
      (ingredientGetById bookLogger ⟨[], []⟩ f rawId).response =
        ⟨500, .text e.message⟩ ∧
      (ingredientGetById bookLogger ⟨[], []⟩ f rawId).calls.length = 1 ∧
      (ingredientGetById bookLogger ⟨[], []⟩ f rawId).logState.errors =
        [e.message]) ∧
    (∀ (e : Fault) (f : Facade) (ro rl : Option String),
      (checkOptionalNumeric "offset" ro ++
        checkOptionalNumeric "limit" rl).isEmpty = true →
      f (FacadeCall.findAll "Ingredient" [] [.ingredientCategory]
        (some (jsOrDefault (coerceQuery rl) 20))
        (some (jsOrDefault (qSub1 (coerceQuery ro)) 0)) false) = .error e →
      (ingredientsList bookLogger ⟨[], []⟩ f ro rl).response =
        ⟨500, .text e.message⟩ ∧
      (ingredientsList bookLogger ⟨[], []⟩ f ro rl).calls.length = 1 ∧
      (ingredientsList bookLogger ⟨[], []⟩ f ro rl).logState.errors =
        [e.message]) ∧
    (∀ (e : Fault) (f : Facade),
      f (FacadeCall.count "Ingredient") = .error e →
      (ingredientCount bookLogger ⟨[], []⟩ f).response =
        ⟨500, .text e.message⟩ ∧
      (ingredientCount bookLogger ⟨[], []⟩ f).calls.length = 1 ∧
      (ingredientCount bookLogger ⟨[], []⟩ f).logState.errors =
        [e.message]) ∧
    (∀ (e : Fault) (f : Facade) (ro rl : Option String),
      (checkOptionalNumeric "offset" ro ++
        checkOptionalNumeric "limit" rl).isEmpty = true →
      f (FacadeCall.findAll "IngredientCategory" [] []
        (some (jsOrDefault (coerceQuery rl) 20))
        (some (jsOrDefault (qSub1 (coerceQuery ro)) 0)) true) = .error e →
      (ingredientCategoriesList bookLogger ⟨[], []⟩ f ro rl).response =
        ⟨500, .text e.message⟩ ∧
      (ingredientCategoriesList bookLogger ⟨[], []⟩ f ro rl).calls.length =
        1 ∧
      (ingredientCategoriesList bookLogger ⟨[], []⟩ f ro
        rl).logState.errors = [e.message]) ∧
    (∀ (e : Fault) (f : Facade),
      f (FacadeCall.count "IngredientCategory") = .error e →
      (ingredientCategoryCount bookLogger ⟨[], []⟩ f).response =
        ⟨500, .text e.message⟩ ∧
      (ingredientCategoryCount bookLogger ⟨[], []⟩ f).calls.length = 1 ∧
      (ingredientCategoryCount bookLogger ⟨[], []⟩ f).logState.errors =
        [e.message]) ∧
    (∀ (e : Fault) (f : Facade) (ro rl : Option String),
      (checkOptionalNumeric "offset" ro ++
        checkOptionalNumeric "limit" rl).isEmpty = true →
      f (FacadeCall.findAll "Preparation" [] []
        (some (jsOrDefault (coerceQuery rl) 20))
        (some (jsOrDefault (qSub1 (coerceQuery ro)) 0)) false) = .error e →
      (preparationsList bookLogger ⟨[], []⟩ f ro rl).response =
        ⟨500, .text e.message⟩ ∧
      (preparationsList bookLogger ⟨[], []⟩ f ro rl).calls.length = 1 ∧
      (preparationsList bookLogger ⟨[], []⟩ f ro rl).logState.errors =
        [e.message]) := by
  refine ⟨?_, ?_, ?_, ?_, ?_, ?_, ?_, ?_, ?_, ?_, ?_, ?_, ?_, ?_, ?_, ?_⟩
  · intro e f rawId hv hf
    simp [flavorGetById, hv, hf, bookLogger]
  · intro e f b hv hf
    simp [flavorCreate, hv, hf, bookLogger]
  · intro e f rawId b hv hf
    simp [flavorUpdate, hv, hf, bookLogger]
  · intro e f rawId hv hf
    simp [flavorDelete, hv, hf, bookLogger]
  · intro e f rawF hv hf
    simp [flavorIdentifiersList, hv, hf, bookLogger]
  · intro e f rawF rawD hv hf
    simp [flavorIdentifierGet, hv, hf, bookLogger]
  · intro e f rawF b hv hf
    simp at hv
    simp [flavorIdentifierCreate, hv, hf, bookLogger]
  · intro e f rawF rawD idv hv hf
    simp at hv
    simp [flavorIdentifierUpdate, hv, hf, bookLogger]
  · intro e f rawF rawD hv hf
    simp [flavorIdentifierDelete, hv, hf, bookLogger]
  · intro e f rawF hv hf
    simp [flavorNotesList, hv, hf, bookLogger]
  · intro e f rawId hv hf
    simp [ingredientGetById, hv, hf, bookLogger]
  · intro e f ro rl hv hf
    simp [ingredientsList, hv, hf, bookLogger]
  · intro e f hf
    simp [ingredientCount, hf, bookLogger]
  · intro e f ro rl hv hf
    simp [ingredientCategoriesList, hv, hf, bookLogger]
  · intro e f hf
    simp [ingredientCategoryCount, hf, bookLogger]
  · intro e f ro rl hv hf
    simp [preparationsList, hv, hf, bookLogger]

/-- C7 witness: a facade fault with message `boom` on the flavor-by-id
route (id 5) and on the ingredient count route is answered 500 with body
`boom`, with one facade call made and `boom` as the sole entry of the
error log channel. -/
theorem c7_fault_shaping_witness :
    (checkIntParam "id" "params" 1 "5").isEmpty = true ∧
    (flavorGetById bookLogger ⟨[], []⟩ (fun _ => .error ⟨"boom"⟩)
      "5").response = ⟨500, .text "boom"⟩ ∧
    (flavorGetById bookLogger ⟨[], []⟩ (fun _ => .error ⟨"boom"⟩)
      "5").logState.errors = ["boom"] ∧
    (ingredientCount bookLogger ⟨[], []⟩
      (fun _ => .error ⟨"boom"⟩)).response = ⟨500, .text "boom"⟩ :=
  ⟨by decide,
   (c7_fault_shaping.1 ⟨"boom"⟩ (fun _ => .error ⟨"boom"⟩) "5"
     (by decide) rfl).1,
   (c7_fault_shaping.1 ⟨"boom"⟩ (fun _ => .error ⟨"boom"⟩) "5"
     (by decide) rfl).2.2,
   (c7_fault_shaping.2.2.2.2.2.2.2.2.2.2.2.2.1 ⟨"boom"⟩
     (fun _ => .error ⟨"boom"⟩) rfl).1⟩

/-- C8: the two count routes declare no validation rules (the handlers
take no request fields at all) and have no 204 branch: every facade
success, whatever the value — in particular the count 0 — is answered
200 with that value serialized as the JSON body. -/
theorem c8_count_always_200 :
    (∀ {σ : Type} (L : Logger σ) (s : σ) (f : Facade) (v : JsonVal),
      f (FacadeCall.count "Ingredient") = .ok v →
      (ingredientCount L s f).response = ⟨200, .json v⟩ ∧
      (ingredientCount L s f).calls = [FacadeCall.count "Ingredient"]) ∧
    (∀ {σ : Type} (L : Logger σ) (s : σ) (f : Facade) (v : JsonVal),
      f (FacadeCall.count "IngredientCategory") = .ok v →
      (ingredientCategoryCount L s f).response = ⟨200, .json v⟩ ∧
      (ingredientCategoryCount L s f).calls =
        [FacadeCall.count "IngredientCategory"]) := by
  constructor
  · intro σ L s f v hf
    simp [ingredientCount, hf]
  · intro σ L s f v hf
    simp [ingredientCategoryCount, hf]

/-- C8 witness: a facade count of 0 on either count route is answered 200
with the numeric JSON body 0, not 204. -/
theorem c8_count_always_200_witness :
    (ingredientCount bookLogger ⟨[], []⟩
      (fun _ => .ok (.num 0))).response = ⟨200, .json (.num 0)⟩ ∧
    (ingredientCategoryCount bookLogger ⟨[], []⟩
      (fun _ => .ok (.num 0))).response = ⟨200, .json (.num 0)⟩ :=
  ⟨(c8_count_always_200.1 bookLogger ⟨[], []⟩ (fun _ => .ok (.num 0))
     (.num 0) rfl).1,
   (c8_count_always_200.2 bookLogger ⟨[], []⟩ (fun _ => .ok (.num 0))
     (.num 0) rfl).1⟩

/-- C10: on every endpoint the response is fully determined by the
request fields and the facade outcome: runs of the same request against
the same facade under any two loggers, over any two log-state types and
starting states, produce identical responses. -/
theorem c10_logging_independence :
    (∀ {σ σ' : Type} (L : Logger σ) (M : Logger σ') (s : σ) (t : σ')
      (f : Facade) (rawId : String),
      (flavorGetById L s f rawId).response =
        (flavorGetById M t f rawId).response) ∧
    (∀ {σ σ' : Type} (L : Logger σ) (M : Logger σ') (s : σ) (t : σ')
      (f : Facade) (b : FlavorBody),
      (flavorCreate L s f b).response = (flavorCreate M t f b).response) ∧
    (∀ {σ σ' : Type} (L : Logger σ) (M : Logger σ') (s : σ) (t : σ')
      (f : Facade) (rawId : String) (b : FlavorBody),
      (flavorUpdate L s f rawId b).response =
        (flavorUpdate M t f rawId b).response) ∧
    (∀ {σ σ' : Type} (L : Logger σ) (M : Logger σ') (s : σ) (t : σ')
      (f : Facade) (rawId : String),
      (flavorDelete L s f rawId).response =
        (flavorDelete M t f rawId).response) ∧
    (∀ {σ σ' : Type} (L : Logger σ) (M : Logger σ') (s : σ) (t : σ')
      (f : Facade) (rawF : String),
      (flavorIdentifiersList L s f rawF).response =
        (flavorIdentifiersList M t f rawF).response) ∧
    (∀ {σ σ' : Type} (L : Logger σ) (M : Logger σ') (s : σ) (t : σ')
      (f : Facade) (rawF rawD : String),
      (flavorIdentifierGet L s f rawF rawD).response =
        (flavorIdentifierGet M t f rawF rawD).response) ∧
    (∀ {σ σ' : Type} (L : Logger σ) (M : Logger σ') (s : σ) (t : σ')
      (f : Facade) (rawF : String) (b : IdentifierBody),
      (flavorIdentifierCreate L s f rawF b).response =
        (flavorIdentifierCreate M t f rawF b).response) ∧
    (∀ {σ σ' : Type} (L : Logger σ) (M : Logger σ') (s : σ) (t : σ')
      (f : Facade) (rawF rawD : String) (idv : Option JsonVal),
      (flavorIdentifierUpdate L s f rawF rawD idv).response =
        (flavorIdentifierUpdate M t f rawF rawD idv).response) ∧
    (∀ {σ σ' : Type} (L : Logger σ) (M : Logger σ') (s : σ) (t : σ')
      (f : Facade) (rawF rawD : String),
      (flavorIdentifierDelete L s f rawF rawD).response =
        (flavorIdentifierDelete M t f rawF rawD).response) ∧
    (∀ {σ σ' : Type} (L : Logger σ) (M : Logger σ') (s : σ) (t : σ')
      (f : Facade) (rawF : String),
      (flavorNotesList L s f rawF).response =
        (flavorNotesList M t f rawF).response) ∧
    (∀ {σ σ' : Type} (L : Logger σ) (M : Logger σ') (s : σ) (t : σ')
      (f : Facade) (rawId : String),
      (ingredientGetById L s f rawId).response =
        (ingredientGetById M t f rawId).response) ∧
    (∀ {σ σ' : Type} (L : Logger σ) (M : Logger σ') (s : σ) (t : σ')
      (f : Facade) (ro rl : Option String),
      (ingredientsList L s f ro rl).response =
        (ingredientsList M t f ro rl).response) ∧
    (∀ {σ σ' : Type} (L : Logger σ) (M : Logger σ') (s : σ) (t : σ')
      (f : Facade),
      (ingredientCount L s f).response = (ingredientCount M t f).response) ∧
    (∀ {σ σ' : Type} (L : Logger σ) (M : Logger σ') (s : σ) (t : σ')
      (f : Facade) (ro rl : Option String),
      (ingredientCategoriesList L s f ro rl).response =
        (ingredientCategoriesList M t f ro rl).response) ∧
    (∀ {σ σ' : Type} (L : Logger σ) (M : Logger σ') (s : σ) (t : σ')
      (f : Facade),
      (ingredientCategoryCount L s f).response =
        (ingredientCategoryCount M t f).response) ∧
    (∀ {σ σ' : Type} (L : Logger σ) (M : Logger σ') (s : σ) (t : σ')
      (f : Facade) (ro rl : Option String),
      (preparationsList L s f ro rl).response =
        (preparationsList M t f ro rl).response) := by
  refine ⟨?_, ?_, ?_, ?_, ?_, ?_, ?_, ?_, ?_, ?_, ?_, ?_, ?_, ?_, ?_, ?_⟩
  · intro σ σ' L M s t f rawId
    simp only [flavorGetById]
    repeat' split
    all_goals rfl
  · intro σ σ' L M s t f b
    simp only [flavorCreate]
    repeat' split
    all_goals rfl
  · intro σ σ' L M s t f rawId b
    simp only [flavorUpdate]
    repeat' split
    all_goals rfl
  · intro σ σ' L M s t f rawId
    simp only [flavorDelete]
    repeat' split
    all_goals rfl
  · intro σ σ' L M s t f rawF
    simp only [flavorIdentifiersList]
    repeat' split
    all_goals rfl
  · intro σ σ' L M s t f rawF rawD
    simp only [flavorIdentifierGet]
    repeat' split
    all_goals rfl
  · intro σ σ' L M s t f rawF b
    simp only [flavorIdentifierCreate]
    repeat' split
    all_goals rfl
  · intro σ σ' L M s t f rawF rawD idv
    simp only [flavorIdentifierUpdate]
    repeat' split
    all_goals rfl
  · intro σ σ' L M s t f rawF rawD
    simp only [flavorIdentifierDelete]
    repeat' split
    all_goals rfl
  · intro σ σ' L M s t f rawF
    simp only [flavorNotesList]
    repeat' split
    all_goals rfl
  · intro σ σ' L M s t f rawId
    simp only [ingredientGetById]
    repeat' split
    all_goals rfl
  · intro σ σ' L M s t f ro rl
    simp only [ingredientsList]
    repeat' split
    all_goals rfl
  · intro σ σ' L M s t f
    simp only [ingredientCount]
    repeat' split
    all_goals rfl
  · intro σ σ' L M s t f ro rl
    simp only [ingredientCategoriesList]
    repeat' split
    all_goals rfl
  · intro σ σ' L M s t f
    simp only [ingredientCategoryCount]
    repeat' split
    all_goals rfl
  · intro σ σ' L M s t f ro rl
    simp only [preparationsList]
    repeat' split
    all_goals rfl

end Api
